import Mathlib

/-!
Verification development for the AutoLabMate core pipeline.

This file gives a shallow embedding of the core of the repository:
the step compiler and plan compiler (`ExecutorAgent._generate_step_code`,
`ExecutorAgent._create_notebook` in `backend/agents/executor.py`), the
sandbox runner result shape (`ExecutorAgent._execute_notebook`), the
orchestration result (`ExecutorAgent.execute_plan`,
`_execute_plan_background` in `backend/main.py`), and the execution
tracker (`MonitorAgent` in `backend/agents/monitor.py`), together with
theorems settling the specification's claims about them.

Modelling conventions: Python dictionaries become association lists,
Python `None`-able values become `Option`, Python exceptions become
`Except`, and the wall-clock quantities irrelevant to control flow
(timestamps, measured durations) are abstracted as parameters.
-/

namespace AutoLabMate

/-- Parameter values of a Step's `parameters` mapping.  The templates in
`_generate_step_code` consume string-valued parameters (`file_path`,
`plot_type`, `column`, `x`, `y`) and list-of-string parameters
(`columns`), matching the Plan schema. -/
inductive ParamValue where
  | str (s : String)
  | strList (l : List String)
  deriving DecidableEq

/-- Python repr of a string, as produced when a list of strings is
interpolated into an f-string via `str(list)`.  Common escapes are
modelled; strings free of quotes, backslashes and control characters
are rendered exactly as Python renders them. -/
def pyReprStr (s : String) : String :=
  "'" ++ String.join (s.data.map fun c =>
    if c = '\\' then "\\\\"
    else if c = '\'' then "\\'"
    else if c = '\n' then "\\n"
    else if c = '\t' then "\\t"
    else if c = '\r' then "\\r"
    else String.singleton c) ++ "'"

/-- Python `str()` of a parameter value, as applied by f-string
interpolation fields in the code templates. -/
def ParamValue.pyStr : ParamValue → String
  | .str s => s
  | .strList l => "[" ++ String.intercalate ", " (l.map pyReprStr) ++ "]"

/-- Python truthiness of a parameter value (`if columns:`): a string is
truthy when non-empty, a list when non-empty. -/
def ParamValue.isTruthy : ParamValue → Bool
  | .str s => !(s = "")
  | .strList l => !l.isEmpty

/-- The `parameters` dictionary of a Step. -/
abbrev Params := List (String × ParamValue)

/-- Python `parameters.get(key, default)`. -/
def pyGet (ps : Params) (k : String) (d : ParamValue) : ParamValue :=
  match ps.lookup k with
  | some v => v
  | none => d

/-- A Step dictionary.  Each field models `step.get(...)`: `none` stands
for a missing key (Python `None`). -/
structure Step where
  step_number : Option Int
  name : Option String
  action : Option String
  parameters : Params
  deriving DecidableEq

/-- Python `str()` of an optional integer (`str(None) = "None"`). -/
def pyStrOptInt : Option Int → String
  | some n => toString n
  | none => "None"

/-- Python `str()` of an optional string. -/
def pyStrOptStr : Option String → String
  | some s => s
  | none => "None"

/-- Python exceptions that the embedded code can raise. -/
inductive PyErr where
  | nameError (n : String)
  deriving DecidableEq

/-- Fragment emitted for `compute_stats` with a truthy `columns`
parameter, from `_generate_step_code` lines 180-182. -/
def computeStatsColsCode (columns : ParamValue) : String :=
  "# Compute descriptive statistics\nstats_df = df[" ++ columns.pyStr ++ "].describe()\nprint(stats_df)"

/-- Fragment emitted for `compute_stats` without columns, lines 183-185. -/
def computeStatsAllCode : String :=
  "# Compute descriptive statistics\nstats_df = df.describe()\nprint(stats_df)"

/-- Leading text of the histogram template up to the first `column`
interpolation field (lines 192-200 of `executor.py`). -/
def histA : String := "# Create histogram\nplt.figure(figsize=(10, 6))\nplt.hist(df['"

/-- Histogram template between the first and second interpolation of
`column`. -/
def histB : String := "'], bins=30, edgecolor='black')\nplt.title(f'Distribution of "

/-- Histogram template between the second and third interpolation of
`column`.  The `plt.xlabel(column)` occurrence is literal program text
in the source template (it is not an interpolation field). -/
def histC : String := "')\nplt.xlabel(column)\nplt.ylabel('Frequency')\nplt.grid(True, alpha=0.3)\nplt.savefig(f'plots/"

/-- Histogram template tail after the third interpolation of `column`. -/
def histD : String := "_histogram.png', dpi=300, bbox_inches='tight')\nplt.show()"

/-- Fragment emitted for `create_plot` with `plot_type == "histogram"`:
the outer f-string interpolates `column` (via `str()`) at three fields. -/
def histogramCode (column : String) : String :=
  histA ++ column ++ histB ++ column ++ histC ++ column ++ histD

/-- Fragment emitted for `create_plot` with `plot_type == "scatter"`
(lines 205-213): interpolates `x_col` and `y_col`; the title field is
`{y_col} vs {x_col}`, and `plt.xlabel(x_col)` / `plt.ylabel(y_col)` are
literal program text. -/
def scatterCode (xCol yCol : String) : String :=
  "# Create scatter plot\nplt.figure(figsize=(10, 6))\nplt.scatter(df['" ++ xCol ++ "'], df['" ++ yCol ++ "'], alpha=0.6)\nplt.title(f'" ++ yCol ++ " vs " ++ xCol ++ "')\nplt.xlabel(x_col)\nplt.ylabel(y_col)\nplt.grid(True, alpha=0.3)\nplt.savefig(f'plots/" ++ xCol ++ "_" ++ yCol ++ "_scatter.png', dpi=300, bbox_inches='tight')\nplt.show()"

/-- Fragment emitted for `compute_correlations` with truthy `columns`
(lines 218-228). -/
def correlationsCode (columns : ParamValue) : String :=
  "# Compute correlation matrix\ncorr = df[" ++ columns.pyStr ++ "].corr()\nprint(corr)\n\n# Visualize correlation\nplt.figure(figsize=(10, 8))\nsns.heatmap(corr, annot=True, cmap='coolwarm', center=0, square=True)\nplt.title('Correlation Matrix')\nplt.tight_layout()\nplt.savefig('plots/correlation_matrix.png', dpi=300, bbox_inches='tight')\nplt.show()"

/-- Fragment emitted for `generate_report` (lines 231-232). -/
def generateReportCode : String :=
  "# Report generation handled by backend\nprint(\"Report generation completed\")"

/-- Default fallback fragment (lines 235-237): an f-string interpolating
the step's name, action and step number. -/
def fallbackCode (s : Step) : String :=
  "# Execute: " ++ pyStrOptStr s.name ++ "\n# Action: " ++ pyStrOptStr s.action ++ "\nprint(f\"Executing step " ++ pyStrOptInt s.step_number ++ "\")"

/-- Model of `ExecutorAgent._generate_step_code`.

The `load_data` branch returns an f-string whose interpolation fields
include `\x7blen(df)\x7d` and `\x7blen(df.columns)\x7d`; `df` is not bound in the
enclosing Python scope (the executor module binds `pd`, not `df`), so
evaluating that f-string raises `NameError: name 'df' is not defined`
before any fragment is produced.  The branch therefore denotes the
exception.

In the `create_plot` branch the defaults for `column` / `x` / `y` are
`df.columns[0] if 'df' in globals() else ''`; `'df' in globals()` is
False in the executor module, so the default is the empty string.  An
unrecognized `plot_type` falls past both plot sub-branches (which both
return), past the remaining `elif` arms, to the default fallback. -/
def generateStepCode (s : Step) : Except PyErr String :=
  if s.action = some "load_data" then
    .error (.nameError "df")
  else if s.action = some "compute_stats" then
    if (pyGet s.parameters "columns" (.strList [])).isTruthy then
      .ok (computeStatsColsCode (pyGet s.parameters "columns" (.strList [])))
    else
      .ok computeStatsAllCode
  else if s.action = some "create_plot" then
    if pyGet s.parameters "plot_type" (.str "histogram") = .str "histogram" then
      .ok (histogramCode (pyGet s.parameters "column" (.str "")).pyStr)
    else if pyGet s.parameters "plot_type" (.str "histogram") = .str "scatter" then
      .ok (scatterCode (pyGet s.parameters "x" (.str "")).pyStr (pyGet s.parameters "y" (.str "")).pyStr)
    else
      .ok (fallbackCode s)
  else if s.action = some "compute_correlations" then
    if (pyGet s.parameters "columns" (.strList [])).isTruthy then
      .ok (correlationsCode (pyGet s.parameters "columns" (.strList [])))
    else
      .ok (fallbackCode s)
  else if s.action = some "generate_report" then
    .ok generateReportCode
  else
    .ok (fallbackCode s)

/-- A notebook cell, as produced by `nbformat.v4.new_markdown_cell` /
`new_code_cell`: the Document's Blocks, tagged narrative or code. -/
inductive Cell where
  | markdown (source : String)
  | code (source : String)
  deriving DecidableEq

/-- Source text of a cell. -/
def Cell.source : Cell → String
  | .markdown s => s
  | .code s => s

/-- Title cell appended first by `_create_notebook` (lines 110-113). -/
def titleCell : Cell :=
  .markdown "# AutoLabMate Analysis Report\nGenerated automatically from experimental data"

/-- Imports cell appended second by `_create_notebook` (lines 116-130). -/
def importsCell : Cell :=
  .code "# Standard data science imports\nimport pandas as pd\nimport numpy as np\nimport matplotlib.pyplot as plt\nimport seaborn as sns\nfrom scipy import stats\nimport warnings\nwarnings.filterwarnings('ignore')\n\n# Configure plotting\nplt.style.use('seaborn-v0_8')\nsns.set_palette(\"husl\")"

/-- Closing markdown cell (line 147). -/
def summaryMdCell : Cell := .markdown "## Report Summary"

/-- Closing code cell (lines 148-152).  This is a plain (non-f) Python
string, so its braces are literal: the generated program's last
statement reads the variable `execution_time`, which no cell defines. -/
def summaryCodeCell : Cell :=
  .code "# Generate summary\nprint(\"Analysis completed successfully!\")\nprint(f\"Total execution time: \x7bexecution_time:.2f\x7d seconds\")"

/-- Partial Step supplied by a modification overlay entry.  A `some`
field models a key present in the overlay dictionary (overlay values
are non-null per the Plan schema); `none` models an absent key. -/
structure StepPatch where
  step_number : Option Int := none
  name : Option String := none
  action : Option String := none
  parameters : Option Params := none
  deriving DecidableEq

/-- The `modifications["steps"]` dictionary: step number to partial
Step.  Keys are unique, as in a Python dictionary. -/
abbrev Mods := List (Int × StepPatch)

/-- Python dict merge `\x7b**step, **patch\x7d`: the patch wins field by
field; fields absent from the patch keep the step's value. -/
def mergeStep (s : Step) (p : StepPatch) : Step :=
  { step_number := p.step_number.orElse fun _ => s.step_number
    name := p.name.orElse fun _ => s.name
    action := p.action.orElse fun _ => s.action
    parameters := p.parameters.getD s.parameters }

/-- Overlay application of `_create_notebook` (lines 134-136): when a
modifications mapping is supplied and has an entry keyed by the step's
`step_number`, that entry is merged over the step; a step without a
`step_number` never matches. -/
def applyMods (mods : Option Mods) (s : Step) : Step :=
  match mods with
  | none => s
  | some m =>
    match s.step_number with
    | none => s
    | some n =>
      match m.lookup n with
      | some p => mergeStep s p
      | none => s

/-- Step header markdown cell (line 139), built from the (possibly
merged) step. -/
def stepHeader (s : Step) : String :=
  "## Step " ++ pyStrOptInt s.step_number ++ ": " ++ pyStrOptStr s.name

/-- Cells contributed by one step: header markdown cell then code cell
(lines 138-144), after overlay application. -/
def stepPair (mods : Option Mods) (s : Step) : Except PyErr (List Cell) :=
  (generateStepCode (applyMods mods s)).map
    fun code => [.markdown (stepHeader (applyMods mods s)), .code code]

/-- Cells contributed by the step loop of `_create_notebook`, in plan
order; the first raising step aborts the loop with its exception. -/
def stepCellsAll (mods : Option Mods) : List Step → Except PyErr (List Cell)
  | [] => .ok []
  | s :: rest => do
    let p ← stepPair mods s
    let r ← stepCellsAll mods rest
    pure (p ++ r)

/-- Model of `ExecutorAgent._create_notebook`: title and imports cells,
then the per-step cells, then the closing summary cells. -/
def createNotebook (steps : List Step) (mods : Option Mods) : Except PyErr (List Cell) := do
  let mid ← stepCellsAll mods steps
  pure ([titleCell, importsCell] ++ mid ++ [summaryMdCell, summaryCodeCell])

/-- Wall-clock timeout passed to `subprocess.run` in
`_execute_notebook` (line 276). -/
def sandboxTimeoutSeconds : Nat := 300

/-- Outcome of the `subprocess.run` call inside `_execute_notebook`:
normal completion with captured streams and exit status, the
`TimeoutExpired` exception after 300 seconds, or any other exception
(e.g. a launch failure) with its message. -/
inductive RunOutcome where
  | completed (returncode : Int) (stdout stderr : String)
  | timedOut
  | raised (msg : String)
  deriving DecidableEq

/-- The `outputs` dictionary of an execution result: either the three
captured fields (normal completion) or a single `error` field (the
exception branches build `\x7b"error": ...\x7d`). -/
inductive Outputs where
  | captured (stdout stderr : String) (returncode : Int)
  | errorOnly (error : String)
  deriving DecidableEq

/-- The `stderr` field of an `outputs` dictionary, when present. -/
def Outputs.stderrField : Outputs → Option String
  | .captured _ e _ => some e
  | .errorOnly _ => none

/-- The `returncode` field of an `outputs` dictionary, when present. -/
def Outputs.returncodeField : Outputs → Option Int
  | .captured _ _ rc => some rc
  | .errorOnly _ => none

/-- Result dictionary of `_execute_notebook`. -/
structure NotebookRunResult where
  outputs : Outputs
  execution_time : ℚ
  success : Bool
  deriving DecidableEq

/-- Model of `ExecutorAgent._execute_notebook` (lines 254-309) as a
function of the subprocess outcome and the measured elapsed time:
normal exit yields the captured streams with `success = (returncode ==
0)`; `TimeoutExpired` is caught and yields `outputs = \x7b"error":
"Execution timeout"\x7d` with `success = false`; any other exception is
caught and yields `outputs = \x7b"error": str(e)\x7d` with `success =
false`.  The function always returns, never raising. -/
def executeNotebook (o : RunOutcome) (t : ℚ) : NotebookRunResult :=
  match o with
  | .completed rc out err => ⟨.captured out err rc, t, rc = 0⟩
  | .timedOut => ⟨.errorOnly "Execution timeout", t, false⟩
  | .raised msg => ⟨.errorOnly msg, t, false⟩

/-- Outcome dictionary returned by `ExecutorAgent.execute_plan` to its
caller: the `"status": "success"` dictionary with outputs and timing,
or the `"status": "failed"` dictionary with the exception message
(paths and plan id are abstracted away). -/
inductive PlanResult where
  | success (outputs : Outputs) (execution_time : ℚ)
  | failed (error : String)
  deriving DecidableEq

/-- Status string of a `PlanResult`. -/
def PlanResult.status : PlanResult → String
  | .success _ _ => "success"
  | .failed _ => "failed"

/-- Message of a raised `PyErr`, as `str(e)` would render it. -/
def PyErr.message : PyErr → String
  | .nameError n => "name '" ++ n ++ "' is not defined"

/-- Model of `ExecutorAgent.execute_plan` (lines 38-90): compile the
notebook (an exception here is caught by the surrounding `try` and
reported as status `"failed"`), run it via `_execute_notebook` (which
never raises), then generate the report (`reportFault = some m` models
`_generate_report` raising with message `m`, likewise caught).  On the
non-exception path the returned dictionary has `"status": "success"`
unconditionally: the `success` flag of the notebook run result is not
consulted. -/
def executePlan (steps : List Step) (mods : Option Mods) (o : RunOutcome)
    (t : ℚ) (reportFault : Option String) : PlanResult :=
  match createNotebook steps mods with
  | .error e => .failed e.message
  | .ok _ =>
    let r := executeNotebook o t
    match reportFault with
    | some m => .failed m
    | none => .success r.outputs r.execution_time

/-- An execution record held in `MonitorAgent.executions`.  All keys are
written by every `update_execution_status` call; `current_step` /
`total_steps` are `none` when their Python value is `None` (never
supplied).  Step counts are non-negative integers per the Plan schema
(step numbers are ≥ 1 and `total_steps` is a length).  The
`last_updated` timestamp is abstracted away. -/
structure ExecRecord where
  status : String
  current_step : Option Nat
  total_steps : Option Nat
  estimated_remaining : Option String
  deriving DecidableEq

/-- A log entry appended by `MonitorAgent.add_log`; the timestamp is
abstracted away. -/
structure LogEntry where
  level : String
  message : String
  step : Option Nat
  deriving DecidableEq

/-- State of a `MonitorAgent`: the `executions` and `logs`
dictionaries, modelled as association lists with unique keys. -/
structure TrackerState where
  executions : List (String × ExecRecord)
  logs : List (String × List LogEntry)
  deriving DecidableEq

/-- Python dictionary assignment `d[k] = v` on an association list:
replace the first binding of `k`, or append a new binding. -/
def setK {α : Type} (l : List (String × α)) (k : String) (v : α) : List (String × α) :=
  match l with
  | [] => [(k, v)]
  | (k', v') :: t => if k' = k then (k, v) :: t else (k', v') :: setK t k v

/-- Log list stored for an execution id (`self.logs.get(id, [])`). -/
def logsOf (st : TrackerState) (id : String) : List LogEntry :=
  (st.logs.lookup id).getD []

/-- Model of `MonitorAgent.add_log` (lines 86-122): appends exactly one
entry to the execution's log list, creating the list lazily; its `try`
body cannot fail in this model, and console logging is a side effect
outside the state. -/
def addLog (st : TrackerState) (id : String) (level message : String)
    (step : Option Nat) : TrackerState :=
  { st with logs := setK st.logs id (logsOf st id ++ [⟨level, message, step⟩]) }

/-- Python `new or prior` applied to an optional integer argument: a
missing argument (`None`) and a supplied `0` are both falsy, so both
fall back to the prior value. -/
def pyOr (new : Option Nat) (prior : Option Nat) : Option Nat :=
  match new with
  | some n => if n = 0 then prior else some n
  | none => prior

/-- Prior `current_step` consulted by `update_execution_status`
(`self.executions[id].get("current_step")`, after the lazily created
record, which yields `None` for a fresh id). -/
def priorCurrent (st : TrackerState) (id : String) : Option Nat :=
  (st.executions.lookup id).bind (·.current_step)

/-- Prior `total_steps` consulted by `update_execution_status`. -/
def priorTotal (st : TrackerState) (id : String) : Option Nat :=
  (st.executions.lookup id).bind (·.total_steps)

/-- Model of `MonitorAgent.update_execution_status` (lines 124-157):
the record is created lazily, `status` is overwritten, `current_step`
and `total_steps` fall back to the prior value when the argument is
falsy (`None` or `0`), `estimated_remaining` is overwritten with the
argument as given (so `None` when the argument is omitted), and one
INFO log line `"Status updated: <status>"` is appended via `add_log`. -/
def updateExecutionStatus (st : TrackerState) (id : String) (status : String)
    (currentStep totalSteps : Option Nat) (estimatedRemaining : Option String) :
    TrackerState :=
  let r : ExecRecord :=
    { status := status
      current_step := pyOr currentStep (priorCurrent st id)
      total_steps := pyOr totalSteps (priorTotal st id)
      estimated_remaining := estimatedRemaining }
  addLog { st with executions := setK st.executions id r } id "INFO"
    ("Status updated: " ++ status) none

/-- Value of `execution.get("current_step", 0)` in
`get_execution_status`: an unknown id yields the empty dictionary whose
default is the integer `0`; a known record yields its stored value,
possibly `None`. -/
def currentOf (st : TrackerState) (id : String) : Option Nat :=
  match st.executions.lookup id with
  | none => some 0
  | some r => r.current_step

/-- Value of `execution.get("total_steps", 0)` in
`get_execution_status`. -/
def totalOf (st : TrackerState) (id : String) : Option Nat :=
  match st.executions.lookup id with
  | none => some 0
  | some r => r.total_steps

/-- Value of `execution.get("status", "unknown")`. -/
def statusStrOf (st : TrackerState) (id : String) : String :=
  match st.executions.lookup id with
  | none => "unknown"
  | some r => r.status

/-- Value of `execution.get("estimated_remaining")`. -/
def etaOf (st : TrackerState) (id : String) : Option String :=
  (st.executions.lookup id).bind (·.estimated_remaining)

/-- Python `log_entries[-50:]`: the most recent 50 entries, in order. -/
def lastFifty (l : List LogEntry) : List LogEntry :=
  l.drop (l.length - 50)

/-- Result of `MonitorAgent.get_execution_status`: the status
dictionary, or the `\x7b"status": "error", ...\x7d` dictionary produced by
the `except` branch. -/
inductive StatusResult where
  | ok (status : String) (current_step : Option Nat) (total_steps : Option Nat)
      (logs : List String) (estimated_remaining : Option String)
      (progress_percent : ℚ)
  | error (msg : String)
  deriving DecidableEq

/-- Status string of a `StatusResult` (the `"error"` status for the
exception branch). -/
def StatusResult.statusStr : StatusResult → String
  | .ok s _ _ _ _ _ => s
  | .error _ => "error"

/-- Progress value of a `StatusResult`, when one was produced. -/
def StatusResult.progress : StatusResult → Option ℚ
  | .ok _ _ _ _ _ p => some p
  | .error _ => none

/-- Model of `MonitorAgent.get_execution_status` (lines 37-72).  The
progress expression guards the division with `total_steps > 0`; when a
stored step field is `None` where an integer is required, the Python
comparison (`None > 0`) or division (`None / n`) raises `TypeError`,
which the `except` branch converts to the error dictionary. -/
def getExecutionStatus (st : TrackerState) (id : String) : StatusResult :=
  match totalOf st id with
  | none => .error "TypeError"
  | some t =>
    if 0 < t then
      match currentOf st id with
      | none => .error "TypeError"
      | some c =>
        .ok (statusStrOf st id) (some c) (some t)
          ((lastFifty (logsOf st id)).map (·.message)) (etaOf st id)
          ((c : ℚ) / (t : ℚ) * 100)
    else
      .ok (statusStrOf st id) (currentOf st id) (some t)
        ((lastFifty (logsOf st id)).map (·.message)) (etaOf st id) 0

/-- Model of `_execute_plan_background` in `backend/main.py` (lines
324-342): it awaits `executor_agent.execute_plan` (whose result is
computed, logged to the console, and discarded) inside a `try/except`
that swallows every fault.  It performs no call on the `MonitorAgent`,
so the tracker state is returned unchanged. -/
def executePlanBackground (tracker : TrackerState) (steps : List Step)
    (mods : Option Mods) (o : RunOutcome) (t : ℚ)
    (reportFault : Option String) : TrackerState :=
  let _result := executePlan steps mods o t reportFault
  tracker

/-- Predicate for the middle section of a compiled Document: a sequence
of narrative-header/code cell pairs. -/
def isHeaderCodePairs : List Cell → Bool
  | [] => true
  | .markdown _ :: .code _ :: rest => isHeaderCodePairs rest
  | _ :: _ => false

lemma lookup_setK_self {α : Type} (l : List (String × α)) (k : String) (v : α) :
    (setK l k v).lookup k = some v := by
  induction l with
  | nil => simp [setK, List.lookup]
  | cons hd t ih =>
    obtain ⟨k', v'⟩ := hd
    by_cases hk : k' = k
    · subst hk
      simp [setK, List.lookup]
    · have hne : (k == k') = false := by
        simp [Ne.symm hk]
      simp [setK, hk, List.lookup, hne, ih]

lemma generateStepCode_ok (s : Step) (h : s.action ≠ some "load_data") :
    ∃ c, generateStepCode s = .ok c := by
  unfold generateStepCode
  rw [if_neg h]
  repeat' split
  all_goals exact ⟨_, rfl⟩

lemma stepCellsAll_ok (steps : List Step)
    (h : ∀ s ∈ steps, s.action ≠ some "load_data") :
    ∃ mid, stepCellsAll none steps = .ok mid ∧
      mid.length = 2 * steps.length ∧ isHeaderCodePairs mid = true := by
  induction steps with
  | nil => exact ⟨[], rfl, rfl, rfl⟩
  | cons s rest ih =>
    obtain ⟨mid, hm, hl, hp⟩ := ih fun x hx => h x (List.mem_cons_of_mem _ hx)
    obtain ⟨c, hc⟩ := generateStepCode_ok s (h s (List.mem_cons_self _ _))
    refine ⟨[.markdown (stepHeader s), .code c] ++ mid, ?_, ?_, ?_⟩
    · simp only [stepCellsAll, stepPair, applyMods, hc, hm, Except.map]
      rfl
    · simp [hl]
      ring
    · simpa [isHeaderCodePairs] using hp

lemma applyMods_none (s : Step) : applyMods none s = s := rfl

lemma applyMods_single_ne (s : Step) (k : Int) (p : StepPatch)
    (h : s.step_number ≠ some k) : applyMods (some [(k, p)]) s = s := by
  unfold applyMods
  cases hs : s.step_number with
  | none => rfl
  | some n =>
    have hnk : (n == k) = false := by
      simp only [beq_eq_false_iff_ne, ne_eq]
      intro e
      exact h (by rw [hs, e])
    simp [List.lookup, hnk]

lemma applyMods_single_eq (s : Step) (k : Int) (p : StepPatch)
    (h : s.step_number = some k) : applyMods (some [(k, p)]) s = mergeStep s p := by
  unfold applyMods
  rw [h]
  simp [List.lookup]

lemma stepCellsAll_overlay (steps : List Step) (k : Int) (p : StepPatch) :
    stepCellsAll (some [(k, p)]) steps =
      stepCellsAll none
        (steps.map fun s => if s.step_number = some k then mergeStep s p else s) := by
  induction steps with
  | nil => rfl
  | cons s rest ih =>
    have hpair : stepPair (some [(k, p)]) s =
        stepPair none (if s.step_number = some k then mergeStep s p else s) := by
      by_cases hs : s.step_number = some k
      · rw [if_pos hs]
        simp only [stepPair, applyMods_single_eq s k p hs, applyMods_none]
      · rw [if_neg hs]
        simp only [stepPair, applyMods_single_ne s k p hs, applyMods_none]
    simp only [stepCellsAll, List.map, hpair, ih]

/-- C1: the claim says an execution whose sandboxed run exits nonzero is
reported with status "failed".  Evaluating `execute_plan` at the failing
input (empty plan, subprocess exits with status 1): the notebook run
result has `success = false`, yet the outcome returned to the caller
has status "success" — `execute_plan` returns "success" on every
non-exception path without consulting `ExecutionResult.succeeded`. -/
theorem executePlan_reports_success_for_failed_run :
    executePlan [] none (.completed 1 "" "Traceback: NameError") 7 none =
      .success (.captured "" "Traceback: NameError" 1) 7 ∧
    (executeNotebook (.completed 1 "" "Traceback: NameError") 7).success = false ∧
    (executePlan [] none (.completed 1 "" "Traceback: NameError") 7 none).status =
      "success" :=
  ⟨rfl, rfl, rfl⟩

/-- C2: the claim says the Tracker's record receives a status update at
each stage transition and eventually reaches a terminal state.  The
background task `_execute_plan_background` performs no MonitorAgent
call at all: it leaves any tracker state unchanged, so an execution's
tracked status stays "unknown" (no record is ever created), never
reaching Succeeded or Failed. -/
theorem backgroundTask_leaves_tracker_unchanged :
    (∀ (tracker : TrackerState) (steps : List Step) (mods : Option Mods)
        (o : RunOutcome) (t : ℚ) (rf : Option String),
        executePlanBackground tracker steps mods o t rf = tracker) ∧
    (getExecutionStatus
        (executePlanBackground ⟨[], []⟩ [] none (.completed 0 "" "") 1 none)
        "exec_plan_1").statusStr = "unknown" :=
  ⟨fun _ _ _ _ _ _ => rfl, rfl⟩

set_option maxRecDepth 10000 in
/-- C3: the empty Plan compiles without error to exactly the
preamble and closing cells (this part of the claim holds), but the
closing code cell reads the variable `execution_time` while no cell of
the document assigns it, so the generated standalone program raises
`NameError` at its last statement and exits nonzero — the run does not
yield `succeeded = true` as claimed. -/
theorem emptyPlan_document_references_undefined_time :
    createNotebook [] none =
      .ok [titleCell, importsCell, summaryMdCell, summaryCodeCell] ∧
    "execution_time".data <:+: summaryCodeCell.source.data ∧
    ¬ "execution_time =".data <:+: titleCell.source.data ∧
    ¬ "execution_time=".data <:+: titleCell.source.data ∧
    ¬ "execution_time =".data <:+: importsCell.source.data ∧
    ¬ "execution_time=".data <:+: importsCell.source.data ∧
    ¬ "execution_time =".data <:+: summaryMdCell.source.data ∧
    ¬ "execution_time=".data <:+: summaryMdCell.source.data ∧
    ¬ "execution_time =".data <:+: summaryCodeCell.source.data ∧
    ¬ "execution_time=".data <:+: summaryCodeCell.source.data :=
  ⟨rfl, by decide, by decide, by decide, by decide, by decide, by decide,
    by decide, by decide, by decide⟩

/-- C4 counterexample: the claim says the timeout result's
`standardError` field is set to a timeout marker and its `exitStatus`
field is a sentinel value; in fact the timeout branch returns an
outputs dictionary with a single `error` field, so there is no stderr
field and no exit-status field at all (only `succeeded = false` holds). -/
theorem timeout_outputs_lack_stderr_and_exitstatus :
    (executeNotebook .timedOut 5).outputs.stderrField = none ∧
    (executeNotebook .timedOut 5).outputs.returncodeField = none ∧
    (executeNotebook .timedOut 5).success = false :=
  ⟨rfl, rfl, rfl⟩

/-- C4 amended: a run exceeding the 300-second timeout returns (rather
than throws) a result with `succeeded = false` whose outputs dictionary
consists of the single field `error = "Execution timeout"`; no stderr
or exit-status field is populated. -/
theorem timeout_returns_error_outputs :
    ∀ t : ℚ, executeNotebook .timedOut t =
      ⟨.errorOnly "Execution timeout", t, false⟩ ∧ sandboxTimeoutSeconds = 300 :=
  fun _ => ⟨rfl, rfl⟩

/-- C5 counterexample: the claim's count is 2N + 2 blocks; for the
empty Plan (N = 0) the compiled Document has 4 cells, not 2, because
the preamble and the closing each consist of a narrative cell and a
code cell. -/
theorem document_block_count_cex :
    (createNotebook [] none).map List.length = .ok 4 ∧ (4 : Nat) ≠ 2 * 0 + 2 :=
  ⟨rfl, by decide⟩

/-- C5 amended: for every Plan none of whose steps has action
`load_data` (whose template crashes compilation) and no overlay, the
compiled Document is exactly N header/code cell pairs between a
two-cell preamble and a two-cell closing, 2N + 4 cells in total; in
particular the empty Plan still yields the preamble and closing. -/
theorem document_block_structure (steps : List Step)
    (h : ∀ s ∈ steps, s.action ≠ some "load_data") :
    ∃ mid, stepCellsAll none steps = .ok mid ∧
      mid.length = 2 * steps.length ∧
      isHeaderCodePairs mid = true ∧
      createNotebook steps none =
        .ok ([titleCell, importsCell] ++ mid ++ [summaryMdCell, summaryCodeCell]) ∧
      ([titleCell, importsCell] ++ mid ++ [summaryMdCell, summaryCodeCell]).length =
        2 * steps.length + 4 := by
  obtain ⟨mid, hm, hl, hp⟩ := stepCellsAll_ok steps h
  refine ⟨mid, hm, hl, hp, ?_, ?_⟩
  · simp only [createNotebook, hm]
    rfl
  · simp [hl]

/-- Concrete step used to witness the amended C5 structure theorem. -/
def statsStepW : Step :=
  ⟨some 1, some "Compute Stats", some "compute_stats", [("columns", .strList ["col1"])]⟩

/-- C5 witness: the structure theorem applied to the one-step plan
containing `statsStepW`. -/
theorem document_block_structure_witness :
    ∃ mid, stepCellsAll none [statsStepW] = .ok mid ∧
      mid.length = 2 * [statsStepW].length ∧
      isHeaderCodePairs mid = true ∧
      createNotebook [statsStepW] none =
        .ok ([titleCell, importsCell] ++ mid ++ [summaryMdCell, summaryCodeCell]) ∧
      ([titleCell, importsCell] ++ mid ++ [summaryMdCell, summaryCodeCell]).length =
        2 * [statsStepW].length + 4 :=
  document_block_structure [statsStepW] (by decide)

/-- C6: the claim says compiling a step with missing required
parameters never raises and yields a diagnostic placeholder.
Evaluating the compiler at a `load_data` step with empty parameters:
the branch's f-string evaluates `len(df)` with `df` unbound, raising
`NameError` instead of returning any fragment, and the exception
aborts compilation of the entire plan containing the step. -/
theorem loadData_step_compilation_raises :
    generateStepCode ⟨some 1, some "Load Data", some "load_data", []⟩ =
      .error (.nameError "df") ∧
    createNotebook [⟨some 1, some "Load Data", some "load_data", []⟩] none =
      .error (.nameError "df") :=
  ⟨rfl, rfl⟩

/-- C7: compiling with an overlay holding exactly one entry, keyed by
step number k, equals the overlay-free compilation of the plan in which
every step numbered k is replaced by the field-by-field merge (overlay
winning); the cells of any step not numbered k are identical to the
overlay-free compilation's, and the step numbered k contributes exactly
the merged step's cells. -/
theorem overlay_changes_only_target_step (steps : List Step) (k : Int) (p : StepPatch) :
    createNotebook steps (some [(k, p)]) =
      createNotebook
        (steps.map fun s => if s.step_number = some k then mergeStep s p else s) none ∧
    (∀ s : Step, s.step_number ≠ some k →
      stepPair (some [(k, p)]) s = stepPair none s) ∧
    (∀ s : Step, s.step_number = some k →
      stepPair (some [(k, p)]) s = stepPair none (mergeStep s p)) := by
  refine ⟨?_, ?_, ?_⟩
  · simp only [createNotebook, stepCellsAll_overlay]
  · intro s hs
    simp only [stepPair, applyMods_single_ne s k p hs, applyMods_none]
  · intro s hs
    simp only [stepPair, applyMods_single_eq s k p hs, applyMods_none]

/-- Concrete step used to witness the overlay theorem. -/
def overlayStepW : Step := ⟨some 1, some "Stats", some "compute_stats", []⟩

/-- Concrete overlay patch used to witness the overlay theorem. -/
def overlayPatchW : StepPatch := { name := some "Edited Stats" }

/-- C7 witness: the overlay theorem applied to a concrete step, once
with a non-matching key (cells unchanged) and once with the matching
key (cells of the merged step). -/
theorem overlay_changes_only_target_step_witness :
    stepPair (some [(2, overlayPatchW)]) overlayStepW = stepPair none overlayStepW ∧
    stepPair (some [(1, overlayPatchW)]) overlayStepW =
      stepPair none (mergeStep overlayStepW overlayPatchW) :=
  ⟨(overlay_changes_only_target_step [overlayStepW] 2 overlayPatchW).2.1
      overlayStepW (by decide),
    (overlay_changes_only_target_step [overlayStepW] 1 overlayPatchW).2.2
      overlayStepW (by decide)⟩

/-- C8: under the data-model invariant that the current step never
exceeds the total (both present as integers), `get_execution_status`
returns a progress value in [0, 100] that equals 100·current/total when
the total is positive and 0 when the total is 0 (the division is
guarded). -/
theorem progress_percent_in_range (st : TrackerState) (id : String) (c t : Nat)
    (hc : currentOf st id = some c) (ht : totalOf st id = some t) (hle : c ≤ t) :
    ∃ p : ℚ, (getExecutionStatus st id).progress = some p ∧
      0 ≤ p ∧ p ≤ 100 ∧ (0 < t → p = 100 * c / t) ∧ (t = 0 → p = 0) := by
  by_cases h0 : 0 < t
  · refine ⟨(c : ℚ) / (t : ℚ) * 100, ?_, ?_, ?_, ?_, ?_⟩
    · simp only [getExecutionStatus, ht, hc, if_pos h0, StatusResult.progress]
    · positivity
    · have htq : (0 : ℚ) < t := by exact_mod_cast h0
      have hdiv : (c : ℚ) / t ≤ 1 := (div_le_one htq).mpr (by exact_mod_cast hle)
      calc (c : ℚ) / t * 100 ≤ 1 * 100 :=
            mul_le_mul_of_nonneg_right hdiv (by norm_num)
        _ = 100 := one_mul 100
    · intro _
      ring
    · intro ht0
      exact absurd (ht0 ▸ h0) (lt_irrefl 0)
  · have ht0 : t = 0 := by omega
    refine ⟨0, ?_, le_refl 0, by norm_num, ?_, fun _ => rfl⟩
    · simp only [getExecutionStatus, ht, if_neg h0, StatusResult.progress]
    · intro hlt
      exact absurd hlt h0

/-- Concrete tracker state used to witness the progress theorem. -/
def trackerW : TrackerState := ⟨[("exec_1", ⟨"running", some 1, some 2, none⟩)], []⟩

/-- C8 witness: the progress theorem applied to a record with current
step 1 of 2. -/
theorem progress_percent_in_range_witness :
    ∃ p : ℚ, (getExecutionStatus trackerW "exec_1").progress = some p ∧
      0 ≤ p ∧ p ≤ 100 ∧ (0 < 2 → p = 100 * ((1 : Nat) : ℚ) / ((2 : Nat) : ℚ)) ∧
      ((2 : Nat) = 0 → p = 0) :=
  progress_percent_in_range trackerW "exec_1" 1 2 rfl rfl (by decide)

/-- Concrete tracker state with a stored ETA, used to refute C9. -/
def trackerEta : TrackerState :=
  ⟨[("exec_9", ⟨"running", some 1, some 4, some "5 minutes"⟩)], []⟩

/-- C9 counterexample: the claim says `estimatedRemaining` retains its
prior value when not supplied; updating a record that holds an ETA
without supplying one overwrites the stored "5 minutes" with None. -/
theorem updateStatus_clears_eta_cex :
    ((trackerEta.executions.lookup "exec_9").map (·.estimated_remaining)) =
      some (some "5 minutes") ∧
    (((updateExecutionStatus trackerEta "exec_9" "running" none none none).executions.lookup
        "exec_9").map (·.estimated_remaining)) = some none ∧
    some (some "5 minutes") ≠ some (none : Option String) :=
  ⟨rfl, rfl, by decide⟩

/-- C9 amended: `update_execution_status` overwrites the status, keeps
the prior `current_step` / `total_steps` when the argument is omitted
(or supplied as the falsy 0), always overwrites `estimated_remaining`
with the supplied argument (None when omitted), and appends exactly one
INFO log line recording the new status. -/
theorem updateStatus_merge_and_log :
    ∀ (st : TrackerState) (id status : String) (cur tot : Option Nat)
      (eta : Option String),
      (updateExecutionStatus st id status cur tot eta).executions.lookup id =
        some ⟨status, pyOr cur (priorCurrent st id), pyOr tot (priorTotal st id), eta⟩ ∧
      logsOf (updateExecutionStatus st id status cur tot eta) id =
        logsOf st id ++ [⟨"INFO", "Status updated: " ++ status, none⟩] := by
  intro st id status cur tot eta
  constructor
  · simp only [updateExecutionStatus, addLog]
    exact lookup_setK_self _ _ _
  · simp only [updateExecutionStatus, addLog, logsOf, lookup_setK_self, Option.getD_some]

set_option maxRecDepth 10000 in
/-- C10 counterexample: the claim says no parameter content can alter
the control flow of the emitted fragment; a `column` value containing a
newline and a statement is spliced verbatim into the histogram
template, adding lines (and the statement `import os`) to the fragment
produced by the step compiler for a concrete `create_plot` step. -/
theorem parameter_injection_cex :
    (histogramCode "a").data.count '\n' = 8 ∧
    (histogramCode "a\nimport os #").data.count '\n' = 11 ∧
    "import os #".data <:+: (histogramCode "a\nimport os #").data ∧
    ¬ "import os #".data <:+: (histogramCode "a").data ∧
    generateStepCode ⟨some 3, some "Plot", some "create_plot",
        [("plot_type", .str "histogram"), ("column", .str "a\nimport os #")]⟩ =
      .ok (histogramCode "a\nimport os #") :=
  ⟨by decide, by decide, by decide, by decide, rfl⟩

set_option maxRecDepth 10000 in
/-- C10 amended: parameter values are spliced into the fixed templates
verbatim, with no escaping or validation; the injection boundary of the
claim does not hold, and only values free of newline characters leave
the histogram fragment's line structure (8 line breaks) unchanged. -/
theorem parameter_interpolation_verbatim (column : String)
    (h : column.data.count '\n' = 0) :
    (histogramCode column).data.count '\n' = 8 := by
  have e : (histogramCode column).data =
      histA.data ++ column.data ++ histB.data ++ column.data ++
        histC.data ++ column.data ++ histD.data := by
    simp [histogramCode, String.data_append]
  rw [e]
  simp only [List.count_append, h]
  decide

set_option maxRecDepth 10000 in
/-- C10 witness: the amended interpolation theorem applied to the
newline-free column name "temperature". -/
theorem parameter_interpolation_verbatim_witness :
    "temperature".data.count '\n' = 0 ∧
    (histogramCode "temperature").data.count '\n' = 8 :=
  ⟨by decide, parameter_interpolation_verbatim "temperature" (by decide)⟩

end AutoLabMate
